import Mathlib

/-!
Shallow embedding of `wifiphisher/common/interfaces.py`.

The module is a façade over the `pyric.pyw` wireless-control library. We model
that library as an oracle (`OS`): each primitive is a pure function whose
`Option`/`Bool` result encodes "raised `pyric.error`" versus success. Every
embedded operation returns its Python return value together with a trace of
the OS-primitive calls it performed (each event records the primitive, its
arguments and its outcome), so that ordering properties such as
"power-down happens before the mode change" are statable.

`setup_interfaces` in the source builds its `result` as a
`collections.namedtuple` instance and then assigns to its fields
(`result.status = False`, ...). A namedtuple is an immutable tuple, so in
Python every such assignment raises `AttributeError`; since every branch of
the function performs at least one such assignment, the function raises on
every call. The embedding is faithful to this: `setup_interfaces` returns
`Except PyErr SetupResult` and every branch ends in
`Except.error PyErr.attributeError`, after performing the oracle calls that
precede the first field assignment on that path.
-/

set_option autoImplicit false

namespace Interfaces

/-- An opaque `pyric.pyw.Card` handle (`pyw.getcard` result). -/
structure Card where
  id : Nat
deriving DecidableEq

/-- One call to an OS/driver primitive, with its arguments and outcome.
`Option`-valued outcomes: `none` means the primitive raised `pyric.error`. -/
inductive Ev where
  | getcard (name : String) (r : Option Card)
  | validcard (c : Card) (b : Bool)
  | up (c : Card) (ok : Bool)
  | down (c : Card) (ok : Bool)
  | modeset (c : Card) (mode : String) (ok : Bool)
  | chset (c : Card) (channel : Int) (ok : Bool)
  | macget (c : Card) (r : Option String)
  | macset (c : Card) (mac : String) (ok : Bool)
  | devmodes (c : Card) (r : Option (List String))
  | winterfaces (l : List String)
  | isinterface (name : String) (b : Bool)
deriving DecidableEq

/-- The `pyric.pyw` library as a deterministic oracle. `none` / `false`
models the primitive raising `pyric.error` (resp. failing). -/
structure OS where
  getcard : String → Option Card
  validcard : Card → Bool
  up : Card → Bool
  down : Card → Bool
  modeset : Card → String → Bool
  chset : Card → Int → Bool
  macget : Card → Option String
  macset : Card → String → Bool
  devmodes : Card → Option (List String)
  winterfaces : List String
  isinterface : String → Bool

/-- Python truthiness of an optional string: `None` and `""` are falsy. -/
def optTruthy : Option String → Bool
  | none => false
  | some s => !(s == "")

/-- `result(status, card)` returned by `get_interface_card`. -/
structure CardResult where
  status : Bool
  card : Option Card
deriving DecidableEq

/-- `get_interface_card(interface_name)`: `pyw.getcard` wrapped in
`try/except pyric.error`; `status` is true iff the card resolved. -/
def get_interface_card (os : OS) (interface_name : String) : CardResult × List Ev :=
  let r := os.getcard interface_name
  (⟨r.isSome, r⟩, [Ev.getcard interface_name r])

/-- The card used by `turn_interface`/`set_interface_mode`/
`set_interface_channel`: the `card` argument if supplied (Python: truthy),
otherwise `get_interface_card(interface_name).card`. -/
def resolved_card (os : OS) (interface_name : String) (card : Option Card) : Option Card :=
  match card with
  | some c => some c
  | none => (get_interface_card os interface_name).1.card

/-- Trace of the resolution step: the `getcard` call happens only when no
`card` argument was supplied. -/
def resolve_trace (os : OS) (interface_name : String) (card : Option Card) : List Ev :=
  match card with
  | some _ => []
  | none => (get_interface_card os interface_name).2

/-- `turn_interface(interface_name, on, card)` (the Python parameter `on`
is `turnOn` here): validate the card then `pyw.up`/`pyw.down` in
`try/except`; true iff the call did not raise. -/
def turn_interface (os : OS) (interface_name : String) (turnOn : Bool) (card : Option Card) :
    Bool × List Ev :=
  let t0 := resolve_trace os interface_name card
  match resolved_card os interface_name card with
  | none => (false, t0)
  | some c =>
    if os.validcard c then
      let ok := if turnOn then os.up c else os.down c
      (ok, t0 ++ [Ev.validcard c (os.validcard c), if turnOn then Ev.up c ok else Ev.down c ok])
    else (false, t0 ++ [Ev.validcard c (os.validcard c)])

/-- `set_interface_mode(interface_name, mode, card)`: resolve and validate
the card, power it down via `turn_interface`, try `pyw.modeset`; only when
`modeset` did not raise, power back up, returning that power-up's result. -/
def set_interface_mode (os : OS) (interface_name mode : String) (card : Option Card) :
    Bool × List Ev :=
  let t0 := resolve_trace os interface_name card
  match resolved_card os interface_name card with
  | none => (false, t0)
  | some c =>
    if os.validcard c then
      let td := turn_interface os interface_name false (some c)
      if td.1 then
        if os.modeset c mode then
          let tu := turn_interface os interface_name true (some c)
          (tu.1, t0 ++ [Ev.validcard c (os.validcard c)] ++ td.2
            ++ [Ev.modeset c mode (os.modeset c mode)] ++ tu.2)
        else
          (false, t0 ++ [Ev.validcard c (os.validcard c)] ++ td.2
            ++ [Ev.modeset c mode (os.modeset c mode)])
      else (false, t0 ++ [Ev.validcard c (os.validcard c)] ++ td.2)
    else (false, t0 ++ [Ev.validcard c (os.validcard c)])

/-- `set_interface_channel(interface_name, channel, card)`: resolve,
validate, `pyw.chset` in `try/except`. -/
def set_interface_channel (os : OS) (interface_name : String) (channel : Int)
    (card : Option Card) : Bool × List Ev :=
  let t0 := resolve_trace os interface_name card
  match resolved_card os interface_name card with
  | none => (false, t0)
  | some c =>
    if os.validcard c then
      (os.chset c channel,
        t0 ++ [Ev.validcard c (os.validcard c), Ev.chset c channel (os.chset c channel)])
    else (false, t0 ++ [Ev.validcard c (os.validcard c)])

/-- The lowercase hex digit Python's `{:02x}` produces for a value in 0..15. -/
def hexDigit (n : Nat) : Char :=
  if n < 10 then Char.ofNat (48 + n) else Char.ofNat (97 + (n - 10))

/-- `"{:02x}".format(n)` for `n` in 0..255: two lowercase hex digits. -/
def fmt02x (n : Nat) : List Char :=
  [hexDigit (n / 16), hexDigit (n % 16)]

/-- `"00:00:00:{:02x}:{:02x}:{:02x}".format(r1, r2, r3)` where each octet is
a `random.randint(0, 255)` draw, modelled as a `Fin 256` input. -/
def random_mac (r1 r2 r3 : Fin 256) : String :=
  String.mk (['0', '0', ':', '0', '0', ':', '0', '0', ':']
    ++ fmt02x r1 ++ [':'] ++ fmt02x r2 ++ [':'] ++ fmt02x r3)

/-- `result(status, old_mac_address, new_mac_address)` of `set_interface_mac`. -/
structure MacResult where
  status : Bool
  old_mac_address : Option String
  new_mac_address : Option String
deriving DecidableEq

/-- `set_interface_mac(interface_name, mac_address, generate_random)`.
The three `random.randint(0, 255)` draws are the `r1 r2 r3` inputs. The
guard is Python's `new_mac_address and card_result.status and
set_interface_mode(...)` (with `card_result.status` true iff
`card_result.card` resolved); inside the `try`, `macget` is read into
`old_mac_address` before `macset` runs, so a `macset` failure still returns
the old MAC that was read. -/
def set_interface_mac (os : OS) (interface_name : String) (mac_address : Option String)
    (generate_random : Bool) (r1 r2 r3 : Fin 256) : MacResult × List Ev :=
  let new_mac_address : Option String :=
    if generate_random then some (random_mac r1 r2 r3) else mac_address
  let cr := get_interface_card os interface_name
  if optTruthy new_mac_address then
    match cr.1.card with
    | some c =>
      let sm := set_interface_mode os interface_name "managed" (some c)
      if sm.1 then
        match os.macget c with
        | none => (⟨false, none, new_mac_address⟩, cr.2 ++ sm.2 ++ [Ev.macget c none])
        | some old =>
          let nm := new_mac_address.getD ""
          (⟨os.macset c nm, some old, new_mac_address⟩,
            cr.2 ++ sm.2 ++ [Ev.macget c (some old), Ev.macset c nm (os.macset c nm)])
      else (⟨false, none, new_mac_address⟩, cr.2 ++ sm.2)
    | none => (⟨false, none, new_mac_address⟩, cr.2)
  else (⟨false, none, new_mac_address⟩, cr.2)

/-- `has_mode(interface_name, mode)`: `modes` starts `[]`; when the card
resolves, `pyw.devmodes` is tried (`except` keeps `[]`); result is
`mode in modes`. -/
def has_mode (os : OS) (interface_name mode : String) : Bool × List Ev :=
  let cr := get_interface_card os interface_name
  match cr.1.card with
  | none => (false, cr.2)
  | some c =>
    match os.devmodes c with
    | none => (false, cr.2 ++ [Ev.devmodes c none])
    | some modes => (modes.contains mode, cr.2 ++ [Ev.devmodes c (some modes)])

/-- Whether `has_mode` reports the mode for this interface (value only). -/
def supports (os : OS) (mode w : String) : Bool :=
  (has_mode os w mode).1

/-- `result(status, interface_name, is_virtual)` of `find_interface`. -/
structure FindResult where
  status : Bool
  interface_name : Option String
  is_virtual : Bool
deriving DecidableEq

/-- The `for wireless_interface in pyw.winterfaces()` loop of
`find_interface`: breaks at the first non-excluded interface with the mode,
remembers the first excluded one with the mode in `alt`
(`alternative_interface`), and stops emitting events at the break. -/
def find_loop (os : OS) (mode : String) (exclude : List String) :
    List String → Option String → Option String × Option String × List Ev
  | [], alt => (none, alt, [])
  | w :: ws, alt =>
    let hm := has_mode os w mode
    if hm.1 then
      if exclude.contains w then
        if alt.isNone then
          let rest := find_loop os mode exclude ws (some w)
          (rest.1, rest.2.1, hm.2 ++ rest.2.2)
        else
          let rest := find_loop os mode exclude ws alt
          (rest.1, rest.2.1, hm.2 ++ rest.2.2)
      else (some w, alt, hm.2)
    else
      let rest := find_loop os mode exclude ws alt
      (rest.1, rest.2.1, hm.2 ++ rest.2.2)

/-- `find_interface(mode, exclude)`: scan `pyw.winterfaces()`; prefer the
first non-excluded interface with the mode (`is_virtual = False`), else the
first excluded one with the mode (`is_virtual = True`), else failure. -/
def find_interface (os : OS) (mode : String) (exclude : List String) :
    FindResult × List Ev :=
  let l := os.winterfaces
  let r := find_loop os mode exclude l none
  let t := Ev.winterfaces l :: r.2.2
  match r.1 with
  | some w => (⟨true, some w, false⟩, t)
  | none =>
    match r.2.1 with
    | some w => (⟨true, some w, true⟩, t)
    | none => (⟨false, none, false⟩, t)

/-- The Python exceptions the embedding distinguishes. -/
inductive PyErr where
  | attributeError
deriving DecidableEq

/-- The namedtuple `setup_interfaces` constructs (and never manages to
mutate or return with updated fields). -/
structure SetupResult where
  status : Bool
  monitor_interface : Option String
  monitor_virtual : Bool
  ap_interface : Option String
  ap_virtual : Bool
  internet_interface : Option String
  error_message : Option String
deriving DecidableEq

/-- `setup_interfaces(monitor_interface, ap_interface, internet_interface)`.
Every branch of the source assigns to a field of the namedtuple `result`
(e.g. `result.status = False`), which raises `AttributeError` because
namedtuples are immutable; the embedding records the oracle calls made up
to that first assignment and then returns the error. -/
def setup_interfaces (os : OS) (monitor_interface ap_interface internet_interface :
    Option String) : Except PyErr SetupResult × List Ev :=
  if optTruthy monitor_interface && optTruthy ap_interface then
    let m := monitor_interface.getD ""
    let a := ap_interface.getD ""
    if m == a then
      (Except.error PyErr.attributeError, [])
    else
      let hm := has_mode os m "monitor"
      if !hm.1 then (Except.error PyErr.attributeError, hm.2)
      else
        let ha := has_mode os a "AP"
        (Except.error PyErr.attributeError, hm.2 ++ ha.2)
  else if optTruthy monitor_interface then
    let m := monitor_interface.getD ""
    let hm := has_mode os m "monitor"
    if hm.1 then
      let fr := find_interface os "AP" [m]
      (Except.error PyErr.attributeError, hm.2 ++ fr.2)
    else (Except.error PyErr.attributeError, hm.2)
  else if optTruthy ap_interface then
    let a := ap_interface.getD ""
    let ha := has_mode os a "AP"
    if ha.1 then
      let fr := find_interface os "monitor" [a]
      (Except.error PyErr.attributeError, ha.2 ++ fr.2)
    else (Except.error PyErr.attributeError, ha.2)
  else
    let fm := find_interface os "monitor" []
    let fa := find_interface os "AP"
      (if fm.1.status then [fm.1.interface_name.getD ""] else [])
    (Except.error PyErr.attributeError, fm.2 ++ fa.2)

/-- A lowercase hexadecimal digit: `0`-`9` or `a`-`f`. -/
def isLowerHexDigit (c : Char) : Bool :=
  (decide (48 ≤ c.toNat) && decide (c.toNat ≤ 57))
    || (decide (97 ≤ c.toNat) && decide (c.toNat ≤ 102))

/-- The spec's MAC pattern `00:00:00:XX:XX:XX`: a 17-character string with
the fixed `00:00:00:` prefix and three colon-separated pairs of lowercase
hex digits. -/
def matchesRandomMacPattern (s : String) : Bool :=
  match s.data with
  | [a1, a2, s1, b1, b2, s2, c1, c2, s3, d1, d2, s4, e1, e2, s5, f1, f2] =>
    a1 == '0' && a2 == '0' && s1 == ':' && b1 == '0' && b2 == '0' && s2 == ':'
      && c1 == '0' && c2 == '0' && s3 == ':'
      && isLowerHexDigit d1 && isLowerHexDigit d2 && s4 == ':'
      && isLowerHexDigit e1 && isLowerHexDigit e2 && s5 == ':'
      && isLowerHexDigit f1 && isLowerHexDigit f2
  | _ => false

/-- A concrete oracle on which every primitive fails. -/
def osEmpty : OS where
  getcard := fun _ => none
  validcard := fun _ => false
  up := fun _ => false
  down := fun _ => false
  modeset := fun _ _ => false
  chset := fun _ _ => false
  macget := fun _ => none
  macset := fun _ _ => false
  devmodes := fun _ => none
  winterfaces := []
  isinterface := fun _ => false

/-- A concrete oracle on which every primitive succeeds; every interface
resolves to card 0 and supports managed, monitor and AP modes. -/
def osFull : OS where
  getcard := fun _ => some ⟨0⟩
  validcard := fun _ => true
  up := fun _ => true
  down := fun _ => true
  modeset := fun _ _ => true
  chset := fun _ _ => true
  macget := fun _ => some "aa:bb:cc:dd:ee:ff"
  macset := fun _ _ => true
  devmodes := fun _ => some ["managed", "monitor", "AP"]
  winterfaces := ["wlan0", "wlan1"]
  isinterface := fun _ => true

/-- `hexDigit` maps 0..15 to a lowercase hexadecimal digit. -/
theorem hexDigit_isLowerHexDigit : ∀ n, n < 16 → isLowerHexDigit (hexDigit n) = true := by
  decide

/-- Claim C4: with `generate_random` set, the attempted MAC is the generated
one, and the generated string matches `00:00:00:XX:XX:XX` with each of the
three trailing octets — any independently chosen values in [0, 255] —
rendered as two lowercase hex digits. -/
theorem C4_random_mac_pattern (os : OS) (interface_name : String)
    (mac_address : Option String) (r1 r2 r3 : Fin 256) :
    (set_interface_mac os interface_name mac_address true r1 r2 r3).1.new_mac_address
      = some (random_mac r1 r2 r3)
    ∧ matchesRandomMacPattern (random_mac r1 r2 r3) = true := by
  constructor
  · unfold set_interface_mac
    dsimp only
    repeat' split
    all_goals first | rfl | simp_all
  · have hdiv : ∀ r : Fin 256, (r : Nat) / 16 < 16 := by
      intro r
      have := r.isLt
      omega
    have hmod : ∀ r : Fin 256, (r : Nat) % 16 < 16 := fun r => Nat.mod_lt _ (by norm_num)
    simp only [random_mac, fmt02x, matchesRandomMacPattern, List.cons_append, List.nil_append]
    simp [hexDigit_isLowerHexDigit _ (hdiv r1), hexDigit_isLowerHexDigit _ (hmod r1),
      hexDigit_isLowerHexDigit _ (hdiv r2), hexDigit_isLowerHexDigit _ (hmod r2),
      hexDigit_isLowerHexDigit _ (hdiv r3), hexDigit_isLowerHexDigit _ (hmod r3)]

/-- Every branch of `set_interface_mac` returns the computed
`new_mac_address` in the result record. -/
theorem set_interface_mac_new_mac (os : OS) (interface_name : String)
    (mac_address : Option String) (generate_random : Bool) (r1 r2 r3 : Fin 256) :
    (set_interface_mac os interface_name mac_address generate_random r1 r2 r3).1.new_mac_address
      = if generate_random then some (random_mac r1 r2 r3) else mac_address := by
  unfold set_interface_mac
  dsimp only
  repeat' split
  all_goals first | rfl | simp_all

/-- Claim C6: the `new_mac_address` field of the result is always the MAC
that was attempted — the generated one when `generate_random` is set,
otherwise the explicit `mac_address` — whatever the status flag says. -/
theorem C6_new_mac_always_attempted (os : OS) (interface_name : String)
    (mac_address : Option String) (generate_random : Bool) (r1 r2 r3 : Fin 256) :
    (set_interface_mac os interface_name mac_address generate_random r1 r2 r3).1.new_mac_address
      = if generate_random then some (random_mac r1 r2 r3) else mac_address :=
  set_interface_mac_new_mac os interface_name mac_address generate_random r1 r2 r3

/-- Claim C8: `has_mode` reports `false` (not an error) when the card fails
to resolve — in particular for a nonexistent interface name — or when the
supported-modes query fails; it reports `true` exactly when the query
succeeded and the mode is in the returned list. -/
theorem C8_has_mode_spec (os : OS) (interface_name mode : String) :
    ((has_mode os interface_name mode).1 = true ↔
      ∃ c ms, os.getcard interface_name = some c ∧ os.devmodes c = some ms ∧ mode ∈ ms)
    ∧ (os.getcard interface_name = none → (has_mode os interface_name mode).1 = false)
    ∧ (∀ c, os.getcard interface_name = some c → os.devmodes c = none →
        (has_mode os interface_name mode).1 = false) := by
  unfold has_mode get_interface_card
  rcases hg : os.getcard interface_name with _ | c
  · simp [hg]
  · rcases hd : os.devmodes c with _ | ms
    · simp [hg, hd]
    · simp [hg, hd]

/-- Witness for C8 at a concrete oracle: resolution fails, so `has_mode`
returns `false`. -/
theorem C8_witness :
    osEmpty.getcard "DoesNotExist" = none
    ∧ (has_mode osEmpty "DoesNotExist" "AP").1 = false :=
  ⟨rfl, (C8_has_mode_spec osEmpty "DoesNotExist" "AP").2.1 rfl⟩

/-- The first component of the `find_interface` loop is the first enumerated
interface that supports the mode and is not excluded. -/
theorem find_loop_fst (os : OS) (mode : String) (exclude : List String) :
    ∀ (l : List String) (alt : Option String),
      (find_loop os mode exclude l alt).1
        = l.find? (fun w => supports os mode w && !(exclude.contains w)) := by
  intro l
  induction l with
  | nil => intro alt; rfl
  | cons w ws ih =>
    intro alt
    unfold find_loop
    cases h1 : (has_mode os w mode).1 with
    | false => simp [List.find?, supports, h1, ih]
    | true =>
      by_cases h2 : w ∈ exclude
      · cases alt with
        | none => simp [List.find?, supports, h1, h2, ih]
        | some a => simp [List.find?, supports, h1, h2, ih]
      · simp [List.find?, supports, h1, h2]

/-- When the `find_interface` loop finds no non-excluded interface, its
`alternative_interface` is the incoming one or, failing that, the first
enumerated excluded interface that supports the mode. -/
theorem find_loop_alt (os : OS) (mode : String) (exclude : List String) :
    ∀ (l : List String) (alt : Option String),
      (find_loop os mode exclude l alt).1 = none →
      (find_loop os mode exclude l alt).2.1
        = (match alt with
           | some a => some a
           | none => l.find? (fun w => supports os mode w && exclude.contains w)) := by
  intro l
  induction l with
  | nil => intro alt _; cases alt <;> rfl
  | cons w ws ih =>
    intro alt h
    unfold find_loop at h ⊢
    cases h1 : (has_mode os w mode).1 with
    | false =>
      simp only [h1, Bool.false_eq_true, if_false] at h ⊢
      cases alt with
      | none => simpa [List.find?, supports, h1] using ih none h
      | some a => simpa using ih (some a) h
    | true =>
      by_cases h2 : w ∈ exclude
      · cases alt with
        | none =>
          simp [h1, h2] at h ⊢
          simpa [List.find?, supports, h1, h2] using ih (some w) h
        | some a =>
          simp [h1, h2] at h ⊢
          simpa using ih (some a) h
      · simp [h1, h2] at h

/-- `find_interface` selection policy, as one equation. -/
theorem find_interface_characterization (os : OS) (mode : String) (exclude : List String) :
    (find_interface os mode exclude).1
      = match os.winterfaces.find? (fun w => supports os mode w && !(exclude.contains w)) with
        | some w => ⟨true, some w, false⟩
        | none =>
          match os.winterfaces.find? (fun w => supports os mode w && exclude.contains w) with
          | some w => ⟨true, some w, true⟩
          | none => ⟨false, none, false⟩ := by
  have h1 := find_loop_fst os mode exclude os.winterfaces none
  unfold find_interface
  dsimp only
  rw [h1]
  cases hf1 : List.find? (fun w => supports os mode w && !(exclude.contains w))
      os.winterfaces with
  | some w => rfl
  | none =>
    have h2 := find_loop_alt os mode exclude os.winterfaces none (h1.trans hf1)
    dsimp only at h2
    rw [h2]
    cases hf2 : List.find? (fun w => supports os mode w && exclude.contains w)
        os.winterfaces with
    | some w => rfl
    | none => rfl

/-- Claim C7: `find_interface` returns the first enumerated interface that
supports the mode and is not excluded, with `is_virtual` false; failing
that, the first enumerated excluded interface that supports the mode, with
`is_virtual` true (excluded interfaces stay eligible, only ranked last);
failing both, a failure record. -/
theorem C7_find_interface_policy (os : OS) (mode : String) (exclude : List String) :
    (find_interface os mode exclude).1
      = match os.winterfaces.find? (fun w => supports os mode w && !(exclude.contains w)) with
        | some w => ⟨true, some w, false⟩
        | none =>
          match os.winterfaces.find? (fun w => supports os mode w && exclude.contains w) with
          | some w => ⟨true, some w, true⟩
          | none => ⟨false, none, false⟩ :=
  find_interface_characterization os mode exclude

/-- Claim C10: if `find_interface` reports failure then the name is `None`
and `is_virtual` is false; `is_virtual` is true only on success with the
returned name a member of the exclude list. -/
theorem C10_find_interface_result_invariant (os : OS) (mode : String) (exclude : List String) :
    ((find_interface os mode exclude).1.status = false →
      (find_interface os mode exclude).1.interface_name = none
        ∧ (find_interface os mode exclude).1.is_virtual = false)
    ∧ ((find_interface os mode exclude).1.is_virtual = true →
      (find_interface os mode exclude).1.status = true
        ∧ ∃ w, (find_interface os mode exclude).1.interface_name = some w ∧ w ∈ exclude) := by
  have h := find_interface_characterization os mode exclude
  cases hf1 : os.winterfaces.find? (fun w => supports os mode w && !(exclude.contains w)) with
  | some w =>
    rw [hf1] at h
    rw [h]
    refine ⟨fun hs => ?_, fun hv => ?_⟩
    · simp at hs
    · simp at hv
  | none =>
    rw [hf1] at h
    cases hf2 : os.winterfaces.find? (fun w => supports os mode w && exclude.contains w) with
    | some w =>
      rw [hf2] at h
      rw [h]
      refine ⟨fun hs => ?_, fun _ => ⟨rfl, ⟨w, rfl, ?_⟩⟩⟩
      · simp at hs
      · have hp := List.find?_some hf2
        simp at hp
        exact hp.2
    | none =>
      rw [hf2] at h
      rw [h]
      refine ⟨fun _ => ⟨rfl, rfl⟩, fun hv => ?_⟩
      simp at hv

/-- Witness for C10 at a concrete oracle: both interfaces support AP mode
but both are excluded, so the result is virtual, successful, and names an
excluded interface. -/
theorem C10_witness :
    (find_interface osFull "AP" ["wlan0", "wlan1"]).1.is_virtual = true
    ∧ ((find_interface osFull "AP" ["wlan0", "wlan1"]).1.status = true
        ∧ ∃ w, (find_interface osFull "AP" ["wlan0", "wlan1"]).1.interface_name = some w
            ∧ w ∈ ["wlan0", "wlan1"]) :=
  ⟨by decide, (C10_find_interface_result_invariant osFull "AP" ["wlan0", "wlan1"]).2 (by decide)⟩

/-- The resolution step only ever performs a `getcard` call. -/
theorem mem_resolve_trace (os : OS) (interface_name : String) (card : Option Card) (e : Ev) :
    e ∈ resolve_trace os interface_name card →
    e = Ev.getcard interface_name (os.getcard interface_name) := by
  cases card <;> simp [resolve_trace, get_interface_card]

/-- Case analysis of `set_interface_mode`: the five possible outcomes, each
with its exact return value and trace. -/
theorem set_interface_mode_shape (os : OS) (interface_name mode : String) (card : Option Card) :
    (resolved_card os interface_name card = none
      ∧ set_interface_mode os interface_name mode card
          = (false, resolve_trace os interface_name card))
    ∨ ∃ c, resolved_card os interface_name card = some c ∧
      ((os.validcard c = false
          ∧ set_interface_mode os interface_name mode card
              = (false, resolve_trace os interface_name card ++ [Ev.validcard c false]))
        ∨ (os.validcard c = true ∧ os.down c = false
          ∧ set_interface_mode os interface_name mode card
              = (false, resolve_trace os interface_name card
                  ++ [Ev.validcard c true, Ev.validcard c true, Ev.down c false]))
        ∨ (os.validcard c = true ∧ os.down c = true ∧ os.modeset c mode = false
          ∧ set_interface_mode os interface_name mode card
              = (false, resolve_trace os interface_name card
                  ++ [Ev.validcard c true, Ev.validcard c true, Ev.down c true,
                      Ev.modeset c mode false]))
        ∨ (os.validcard c = true ∧ os.down c = true ∧ os.modeset c mode = true
          ∧ set_interface_mode os interface_name mode card
              = (os.up c, resolve_trace os interface_name card
                  ++ [Ev.validcard c true, Ev.validcard c true, Ev.down c true,
                      Ev.modeset c mode true, Ev.validcard c true, Ev.up c (os.up c)]))) := by
  cases hrc : resolved_card os interface_name card with
  | none =>
    left
    refine ⟨rfl, ?_⟩
    unfold set_interface_mode
    rw [hrc]
  | some c =>
    right
    refine ⟨c, rfl, ?_⟩
    cases hv : os.validcard c with
    | false =>
      left
      refine ⟨rfl, ?_⟩
      unfold set_interface_mode
      rw [hrc]
      simp [hv]
    | true =>
      right
      cases hd : os.down c with
      | false =>
        left
        refine ⟨rfl, rfl, ?_⟩
        unfold set_interface_mode turn_interface
        rw [hrc]
        simp [resolved_card, resolve_trace, hv, hd]
      | true =>
        right
        cases hm : os.modeset c mode with
        | false =>
          left
          refine ⟨rfl, rfl, rfl, ?_⟩
          unfold set_interface_mode turn_interface
          rw [hrc]
          simp [resolved_card, resolve_trace, hv, hd, hm]
        | true =>
          right
          refine ⟨rfl, rfl, rfl, ?_⟩
          unfold set_interface_mode turn_interface
          rw [hrc]
          simp [resolved_card, resolve_trace, hv, hd, hm]

/-- Claim C2: `set_interface_mode` powers the device off before any mode
change (a successful `down` call precedes every `modeset` call in the
trace); any power-up comes only after a successful mode change; no mode
change is attempted when the power-down fails; and the call returns true
exactly when both the mode change and the final power-up succeeded. -/
theorem C2_set_interface_mode_contract (os : OS) (interface_name mode : String)
    (card : Option Card) :
    (∀ c m ok, Ev.modeset c m ok ∈ (set_interface_mode os interface_name mode card).2 →
      ∃ t1 t2, (set_interface_mode os interface_name mode card).2
          = t1 ++ Ev.down c true :: t2 ∧ Ev.modeset c m ok ∈ t2)
    ∧ (∀ c ok, Ev.up c ok ∈ (set_interface_mode os interface_name mode card).2 →
      ∃ t1 t2, (set_interface_mode os interface_name mode card).2
          = t1 ++ Ev.modeset c mode true :: t2 ∧ Ev.up c ok ∈ t2)
    ∧ (∀ c, Ev.down c false ∈ (set_interface_mode os interface_name mode card).2 →
      ∀ c2 m ok, Ev.modeset c2 m ok ∉ (set_interface_mode os interface_name mode card).2)
    ∧ ((set_interface_mode os interface_name mode card).1 = true ↔
      ∃ c, Ev.modeset c mode true ∈ (set_interface_mode os interface_name mode card).2
        ∧ Ev.up c true ∈ (set_interface_mode os interface_name mode card).2) := by
  rcases set_interface_mode_shape os interface_name mode card with
    ⟨hrc, heq⟩ | ⟨c, hrc, ⟨hv, heq⟩ | ⟨hv, hd, heq⟩ | ⟨hv, hd, hm, heq⟩ | ⟨hv, hd, hm, heq⟩⟩
  · -- resolution failed: the trace is only the getcard call
    refine ⟨?_, ?_, ?_, ?_⟩
    · intro c2 m ok hmem
      rw [heq] at hmem
      have := mem_resolve_trace os interface_name card _ hmem
      simp at this
    · intro c2 ok hmem
      rw [heq] at hmem
      have := mem_resolve_trace os interface_name card _ hmem
      simp at this
    · intro c2 hmem
      rw [heq] at hmem
      have := mem_resolve_trace os interface_name card _ hmem
      simp at this
    · rw [heq]
      constructor
      · intro h; simp at h
      · rintro ⟨c2, h1, -⟩
        have := mem_resolve_trace os interface_name card _ h1
        simp at this
  · -- invalid card
    refine ⟨?_, ?_, ?_, ?_⟩
    · intro c2 m ok hmem
      rw [heq] at hmem
      rcases List.mem_append.1 hmem with hmm | hmm
      · have := mem_resolve_trace os interface_name card _ hmm
        simp at this
      · simp at hmm
    · intro c2 ok hmem
      rw [heq] at hmem
      rcases List.mem_append.1 hmem with hmm | hmm
      · have := mem_resolve_trace os interface_name card _ hmm
        simp at this
      · simp at hmm
    · intro c2 hmem
      rw [heq] at hmem
      rcases List.mem_append.1 hmem with hmm | hmm
      · have := mem_resolve_trace os interface_name card _ hmm
        simp at this
      · simp at hmm
    · rw [heq]
      constructor
      · intro h; simp at h
      · rintro ⟨c2, h1, -⟩
        rcases List.mem_append.1 h1 with hmm | hmm
        · have := mem_resolve_trace os interface_name card _ hmm
          simp at this
        · simp at hmm
  · -- power-down failed
    refine ⟨?_, ?_, ?_, ?_⟩
    · intro c2 m ok hmem
      rw [heq] at hmem
      rcases List.mem_append.1 hmem with hmm | hmm
      · have := mem_resolve_trace os interface_name card _ hmm
        simp at this
      · simp at hmm
    · intro c2 ok hmem
      rw [heq] at hmem
      rcases List.mem_append.1 hmem with hmm | hmm
      · have := mem_resolve_trace os interface_name card _ hmm
        simp at this
      · simp at hmm
    · intro c2 hmem c3 m ok hmem2
      rw [heq] at hmem2
      rcases List.mem_append.1 hmem2 with hmm | hmm
      · have := mem_resolve_trace os interface_name card _ hmm
        simp at this
      · simp at hmm
    · rw [heq]
      constructor
      · intro h; simp at h
      · rintro ⟨c2, h1, -⟩
        rcases List.mem_append.1 h1 with hmm | hmm
        · have := mem_resolve_trace os interface_name card _ hmm
          simp at this
        · simp at hmm
  · -- mode change failed after a successful power-down
    refine ⟨?_, ?_, ?_, ?_⟩
    · intro c2 m ok hmem
      rw [heq] at hmem
      rcases List.mem_append.1 hmem with hmm | hmm
      · have := mem_resolve_trace os interface_name card _ hmm
        simp at this
      · simp only [List.mem_cons, List.not_mem_nil, or_false] at hmm
        rcases hmm with hmm | hmm | hmm | hmm <;> simp at hmm
        obtain ⟨h1, h2, h3⟩ := hmm
        rw [h1, h2, h3]
        refine ⟨resolve_trace os interface_name card
          ++ [Ev.validcard c true, Ev.validcard c true], [Ev.modeset c mode false], ?_, ?_⟩
        · rw [heq]; simp
        · simp
    · intro c2 ok hmem
      rw [heq] at hmem
      rcases List.mem_append.1 hmem with hmm | hmm
      · have := mem_resolve_trace os interface_name card _ hmm
        simp at this
      · simp at hmm
    · intro c2 hmem c3 m ok hmem2
      rw [heq] at hmem2
      rcases List.mem_append.1 hmem2 with hmm | hmm
      · have := mem_resolve_trace os interface_name card _ hmm
        simp at this
      · simp only [List.mem_cons, List.not_mem_nil, or_false] at hmm
        rw [heq] at hmem
        rcases List.mem_append.1 hmem with hdd | hdd
        · have := mem_resolve_trace os interface_name card _ hdd
          simp at this
        · simp at hdd
    · rw [heq]
      constructor
      · intro h; simp at h
      · rintro ⟨c2, -, h2⟩
        rcases List.mem_append.1 h2 with hmm | hmm
        · have := mem_resolve_trace os interface_name card _ hmm
          simp at this
        · simp at hmm
  · -- mode change succeeded: power-up is attempted and decides the result
    refine ⟨?_, ?_, ?_, ?_⟩
    · intro c2 m ok hmem
      rw [heq] at hmem
      rcases List.mem_append.1 hmem with hmm | hmm
      · have := mem_resolve_trace os interface_name card _ hmm
        simp at this
      · simp only [List.mem_cons, List.not_mem_nil, or_false] at hmm
        rcases hmm with hmm | hmm | hmm | hmm | hmm | hmm <;> simp at hmm
        obtain ⟨h1, h2, h3⟩ := hmm
        rw [h1, h2, h3]
        refine ⟨resolve_trace os interface_name card
          ++ [Ev.validcard c true, Ev.validcard c true],
          [Ev.modeset c mode true, Ev.validcard c true, Ev.up c (os.up c)], ?_, ?_⟩
        · rw [heq]; simp
        · simp
    · intro c2 ok hmem
      rw [heq] at hmem
      rcases List.mem_append.1 hmem with hmm | hmm
      · have := mem_resolve_trace os interface_name card _ hmm
        simp at this
      · simp only [List.mem_cons, List.not_mem_nil, or_false] at hmm
        rcases hmm with hmm | hmm | hmm | hmm | hmm | hmm <;> simp at hmm
        obtain ⟨h1, h2⟩ := hmm
        rw [h1, h2]
        refine ⟨resolve_trace os interface_name card
          ++ [Ev.validcard c true, Ev.validcard c true, Ev.down c true],
          [Ev.validcard c true, Ev.up c (os.up c)], ?_, ?_⟩
        · rw [heq]; simp
        · simp
    · intro c2 hmem c3 m ok hmem2
      rw [heq] at hmem
      rcases List.mem_append.1 hmem with hdd | hdd
      · have := mem_resolve_trace os interface_name card _ hdd
        simp at this
      · simp at hdd
    · rw [heq]
      constructor
      · intro hup
        simp only at hup
        exact ⟨c, by simp, by simp [hup]⟩
      · rintro ⟨c2, -, h2⟩
        rcases List.mem_append.1 h2 with hmm | hmm
        · have := mem_resolve_trace os interface_name card _ hmm
          simp at this
        · simp only [List.mem_cons, List.not_mem_nil, or_false] at hmm
          rcases hmm with hmm | hmm | hmm | hmm | hmm | hmm <;> simp at hmm
          exact hmm.2

/-- Witness for C2 at a concrete oracle where everything succeeds: the
mode-change event is in the trace and is preceded by a successful
power-down. -/
theorem C2_witness :
    Ev.modeset ⟨0⟩ "monitor" true ∈ (set_interface_mode osFull "wlan0" "monitor" none).2
    ∧ ∃ t1 t2, (set_interface_mode osFull "wlan0" "monitor" none).2
        = t1 ++ Ev.down ⟨0⟩ true :: t2 ∧ Ev.modeset ⟨0⟩ "monitor" true ∈ t2 :=
  ⟨by decide,
    (C2_set_interface_mode_contract osFull "wlan0" "monitor" none).1 ⟨0⟩ "monitor" true
      (by decide)⟩

/-- Claim C3: when the power-down succeeded but the mode-change primitive
failed, `set_interface_mode` returns false and never invokes the power-up
primitive (the device is left powered off). -/
theorem C3_modeset_failure_skips_powerup (os : OS) (interface_name mode : String)
    (card : Option Card) (c : Card)
    (hdown : Ev.down c true ∈ (set_interface_mode os interface_name mode card).2)
    (hms : Ev.modeset c mode false ∈ (set_interface_mode os interface_name mode card).2) :
    (set_interface_mode os interface_name mode card).1 = false
    ∧ ∀ c2 ok, Ev.up c2 ok ∉ (set_interface_mode os interface_name mode card).2 := by
  rcases set_interface_mode_shape os interface_name mode card with
    ⟨hrc, heq⟩ | ⟨c1, hrc, ⟨hv, heq⟩ | ⟨hv, hd, heq⟩ | ⟨hv, hd, hm, heq⟩ | ⟨hv, hd, hm, heq⟩⟩
  · rw [heq] at hdown
    have := mem_resolve_trace os interface_name card _ hdown
    simp at this
  · rw [heq] at hdown
    rcases List.mem_append.1 hdown with hmm | hmm
    · have := mem_resolve_trace os interface_name card _ hmm
      simp at this
    · simp at hmm
  · rw [heq] at hdown
    rcases List.mem_append.1 hdown with hmm | hmm
    · have := mem_resolve_trace os interface_name card _ hmm
      simp at this
    · simp at hmm
  · refine ⟨by rw [heq], ?_⟩
    intro c2 ok hmem
    rw [heq] at hmem
    rcases List.mem_append.1 hmem with hmm | hmm
    · have := mem_resolve_trace os interface_name card _ hmm
      simp at this
    · simp at hmm
  · rw [heq] at hms
    rcases List.mem_append.1 hms with hmm | hmm
    · have := mem_resolve_trace os interface_name card _ hmm
      simp at this
    · simp at hmm

/-- A concrete oracle that behaves like `osFull` except the mode-change
primitive always raises. -/
def osModesetFails : OS :=
  { osFull with modeset := fun _ _ => false }

/-- Witness for C3: on a concrete oracle where `modeset` raises after a
successful power-down, the call returns false and there is no power-up
event in the trace. -/
theorem C3_witness :
    (Ev.down ⟨0⟩ true ∈ (set_interface_mode osModesetFails "wlan0" "monitor" none).2
      ∧ Ev.modeset ⟨0⟩ "monitor" false
          ∈ (set_interface_mode osModesetFails "wlan0" "monitor" none).2)
    ∧ ((set_interface_mode osModesetFails "wlan0" "monitor" none).1 = false
      ∧ ∀ c2 ok, Ev.up c2 ok ∉ (set_interface_mode osModesetFails "wlan0" "monitor" none).2) :=
  ⟨⟨by decide, by decide⟩,
    C3_modeset_failure_skips_powerup osModesetFails "wlan0" "monitor" none ⟨0⟩
      (by decide) (by decide)⟩

/-- `set_interface_mode` performs no `macset` call. -/
theorem macset_not_in_mode_trace (os : OS) (interface_name mode : String) (card : Option Card) :
    ∀ c mac ok, Ev.macset c mac ok ∉ (set_interface_mode os interface_name mode card).2 := by
  intro c mac ok hmem
  rcases set_interface_mode_shape os interface_name mode card with
    ⟨hrc, heq⟩ | ⟨c1, hrc, ⟨hv, heq⟩ | ⟨hv, hd, heq⟩ | ⟨hv, hd, hm, heq⟩ | ⟨hv, hd, hm, heq⟩⟩
  · rw [heq] at hmem
    have := mem_resolve_trace os interface_name card _ hmem
    simp at this
  all_goals
    rw [heq] at hmem
    rcases List.mem_append.1 hmem with hmm | hmm
    · have := mem_resolve_trace os interface_name card _ hmm
      simp at this
    · simp at hmm

/-- With `generate_random` false, any `macset` call of `set_interface_mac`
writes exactly the explicit `mac_address`. -/
theorem set_interface_mac_macset_explicit (os : OS) (interface_name : String)
    (mac_address : Option String) (r1 r2 r3 : Fin 256) :
    ∀ c m ok,
      Ev.macset c m ok ∈ (set_interface_mac os interface_name mac_address false r1 r2 r3).2 →
      mac_address = some m := by
  intro c m ok hmem
  rcases mac_address with _ | str
  · simp [set_interface_mac, optTruthy, get_interface_card] at hmem
  · by_cases hs : str = ""
    · subst hs
      simp [set_interface_mac, optTruthy, get_interface_card] at hmem
    · rcases hg : os.getcard interface_name with _ | c1
      · simp [set_interface_mac, optTruthy, hs, get_interface_card, hg] at hmem
      · cases hsm : (set_interface_mode os interface_name "managed" (some c1)).1 with
        | false =>
          simp [set_interface_mac, optTruthy, hs, get_interface_card, hg, hsm] at hmem
          exact absurd hmem (macset_not_in_mode_trace os interface_name "managed" (some c1)
            c m ok)
        | true =>
          rcases hmg : os.macget c1 with _ | old
          · simp [set_interface_mac, optTruthy, hs, get_interface_card, hg, hsm, hmg] at hmem
            exact absurd hmem (macset_not_in_mode_trace os interface_name "managed" (some c1)
              c m ok)
          · simp [set_interface_mac, optTruthy, hs, get_interface_card, hg, hsm, hmg] at hmem
            rcases hmem with hmm | hmm
            · exact absurd hmm (macset_not_in_mode_trace os interface_name "managed" (some c1)
                c m ok)
            · rw [hmm.2.1]

/-- Counterexample to claim C5 as stated: a call that supplies an explicit
`mac_address` but leaves `generate_random` at its default `True` does not
bypass randomization — the attempted MAC is the generated one, not the
explicit one. -/
theorem C5_counterexample :
    (set_interface_mac osFull "wlan0" (some "11:22:33:44:55:66") true 0 0
        0).1.new_mac_address = some "00:00:00:00:00:00"
    ∧ (set_interface_mac osFull "wlan0" (some "11:22:33:44:55:66") true 0 0
        0).1.new_mac_address ≠ some "11:22:33:44:55:66" := by
  constructor
  · decide
  · decide

/-- Claim C5 (amended): an explicit `mac_address` together with
`generate_random = False` bypasses randomization entirely: the explicit MAC
is the address attempted — it is returned as `new_mac_address` and any
`macset` call writes exactly it. (With `generate_random` left `True`, the
default, the explicit MAC is ignored in favor of a generated one.) -/
theorem C5_explicit_mac_with_no_random (os : OS) (interface_name : String)
    (mac_address : Option String) (r1 r2 r3 : Fin 256) :
    (set_interface_mac os interface_name mac_address false r1 r2 r3).1.new_mac_address
      = mac_address
    ∧ ∀ c m ok,
        Ev.macset c m ok ∈ (set_interface_mac os interface_name mac_address false r1 r2 r3).2 →
        mac_address = some m := by
  constructor
  · simpa using set_interface_mac_new_mac os interface_name mac_address false r1 r2 r3
  · exact set_interface_mac_macset_explicit os interface_name mac_address r1 r2 r3

/-- Witness for the amended C5: on a concrete oracle the `macset` call
writes the explicit MAC. -/
theorem C5_witness :
    Ev.macset ⟨0⟩ "11:22:33:44:55:66" true
        ∈ (set_interface_mac osFull "wlan0" (some "11:22:33:44:55:66") false 0 0 0).2
    ∧ (some "11:22:33:44:55:66" : Option String) = some "11:22:33:44:55:66" :=
  ⟨by decide,
    (C5_explicit_mac_with_no_random osFull "wlan0" (some "11:22:33:44:55:66") 0 0 0).2
      ⟨0⟩ "11:22:33:44:55:66" true (by decide)⟩

/-- Claim C1 (code bug): `setup_interfaces` never returns a status record —
on every oracle and every input it raises `AttributeError`, because its
namedtuple `result` is immutable yet every branch assigns to its fields
(`result.status = False`, ...). -/
theorem C1_setup_interfaces_always_raises (os : OS)
    (monitor_interface ap_interface internet_interface : Option String) :
    (setup_interfaces os monitor_interface ap_interface internet_interface).1
      = Except.error PyErr.attributeError := by
  unfold setup_interfaces
  dsimp only
  repeat' split
  all_goals rfl

/-- Claim C9 (code bug): with the same explicit monitor and AP name,
`setup_interfaces` performs no oracle call (the empty trace shows the
same-name check does come first, before any mode-support query) but then
raises `AttributeError` on `result.status = False` instead of returning the
"same interface" failure message. -/
theorem C9_same_interface_raises_before_message :
    (setup_interfaces osFull (some "wlan0") (some "wlan0") none).1
      = Except.error PyErr.attributeError
    ∧ (setup_interfaces osFull (some "wlan0") (some "wlan0") none).2 = [] := by
  constructor
  · rfl
  · rfl

end Interfaces
